import Mathlib

/-!
Shallow embedding of the WebsiteAudit service
(src/WebsiteAudit/index.js and src/routes/audit.js).

Conventions of the embedding:
* JS numbers are modelled over the rationals; the only places where IEEE
  rounding could differ from exact arithmetic are the two decimal
  formatting calls, which we model with the ECMA-262 toFixed rule over
  the exact rational value.
* JS `null`/`undefined` are modelled with `Option`; JS truthiness of a
  string is "nonempty".
* Network calls (axios GET), WHATWG URL resolution, the cheerio document
  queries and the Readability extraction are third-party black boxes; the
  embedding takes their observable outcomes as explicit inputs (a `Doc`
  record of extracted document facts and a `Net` record of oracles).
* Code that throws is modelled in the `Except JsError` monad.
-/

/-- Runtime errors that can escape the audited code. -/
inductive JsError
  | referenceError (msg : String)
  | typeError (msg : String)
deriving Repr, DecidableEq

/-- The `message` field of a JS Error object. -/
def JsError.message : JsError → String
  | .referenceError m => m
  | .typeError m => m

/-- Dynamic JS values that appear in `seoData` fields: the source returns
either a number or a string from `calculateReadability`. -/
inductive JsValue
  | num (q : ℚ)
  | str (s : String)
deriving Repr, DecidableEq

/-- JS truthiness of a string: nonempty. -/
def truthy (s : String) : Bool := s != ""

/-- JS truthiness of a string-or-undefined value, as used by
`imageAltTags.every((alt) => alt)`: absent and empty are both falsy. -/
def truthyAlt : Option String → Bool
  | none => false
  | some s => s != ""

/-- Model of `String.prototype.split` on a one-character-class regex with
`+` (e.g. `/\s+/`): a maximal run of delimiter characters is a single
separator, and a leading or trailing run contributes an empty field.
For example `" a  b "` splits into `["", "a", "b", ""]` and `""` splits
into `[""]`. -/
def splitRuns (p : Char → Bool) (s : String) : List String :=
  let step := fun (st : List String × String × Bool) (c : Char) =>
    let (toks, cur, inRun) := st
    if p c then
      if inRun then (toks, cur, true) else (toks ++ [cur], "", true)
    else (toks, cur.push c, false)
  let (toks, cur, _) := s.data.foldl step ([], "", false)
  toks ++ [cur]

/-- Two-digit rendering of a value below 100. -/
def padTwo (n : Nat) : String :=
  if n < 10 then "0" ++ toString n else toString n

/-- ECMA-262 `Number.prototype.toFixed(2)` on a nonnegative value: pick
the integer n minimizing the distance of n / 100 to the argument, ties to
the larger n, then print n with two fractional digits. -/
def toFixed2Core (q : ℚ) : String :=
  let n : Nat := (Int.floor (q * 100 + 1/2)).toNat
  toString (n / 100) ++ "." ++ padTwo (n % 100)

/-- ECMA-262 `Number.prototype.toFixed(2)` on a finite value: the sign is
split off first, then the magnitude is rounded (ties away from zero). -/
def jsToFixed2 (q : ℚ) : String :=
  if q < 0 then "-" ++ toFixed2Core (-q) else toFixed2Core q

/-- JS `Math.round`: round half toward positive infinity. -/
def jsMathRound (q : ℚ) : Int := Int.floor (q + 1/2)

/-- Character class of the sentence-splitting regex in
`calculateReadability`. -/
def isSentenceDelim (c : Char) : Bool := c == '.' || c == '!' || c == '?'

/-- Character class of the vowel-counting regex `/[aeiouy]/i` in
`calculateReadability`. -/
def isVowelChar (c : Char) : Bool :=
  let l := c.toLower
  l == 'a' || l == 'e' || l == 'i' || l == 'o' || l == 'u' || l == 'y'

/-- Whitespace-token list of a text: `text.split(/\s+/)` followed by
`.filter((word) => word.length > 0)`, as in `calculateKeywordDensity`. -/
def jsTokens (text : String) : List String :=
  (splitRuns Char.isWhitespace text).filter (fun w => decide (0 < w.length))

/-- Embeds `calculateKeywordDensity` (src/WebsiteAudit/index.js:155-162).
The cheerio body-text extraction `$(string_for_body).text()` is a black
box; the function below receives that text. When the token list is empty
the source computes `(0 / 0) * 100`, which is NaN, and `NaN.toFixed(2)`
is the string NaN; the first branch records exactly that. -/
def calculateKeywordDensity (bodyText : String) : String :=
  let words := jsTokens bodyText
  let targetKeyword := "example"
  let keywordCount := (words.filter (fun w => w.toLower == targetKeyword)).length
  if words.length = 0 then "NaN"
  else jsToFixed2 (((keywordCount : ℚ) / (words.length : ℚ)) * 100)

/-- Embeds `calculateReadability` (src/WebsiteAudit/index.js:169-191).
JSDOM plus `isProbablyReaderable` and `Readability.parse` are black
boxes: `canRead` is the heuristic verdict and `parseResult` the
`textContent` of the parsed article, or `none` when `parse()` returns
null. The source guards `if (!article) return 0` on the `Readability`
constructor result, which is always truthy, so a null parse reaches
`parsed.textContent` and throws a TypeError. Both `words` and
`sentences` are at least 1 (a split never returns an empty array), so
the divisions are exact. -/
def calculateReadability (canRead : Bool) (parseResult : Option String) :
    Except JsError JsValue :=
  if !canRead then .ok (JsValue.num 0)
  else
    match parseResult with
    | none => .error (JsError.typeError "Cannot read properties of null")
    | some text =>
      let words : Nat := (splitRuns Char.isWhitespace text).length
      let sentences : Nat := (splitRuns isSentenceDelim text).length
      let syllables : Nat := text.data.countP isVowelChar
      let score : ℚ :=
        206.835 - 1.015 * ((words : ℚ) / (sentences : ℚ))
          - 84.6 * ((syllables : ℚ) / (words : ℚ))
      .ok (JsValue.str (jsToFixed2 score))

/-- Outcome of one axios GET: a resolved response with its status code,
or a rejection (network error or a status outside the accepted range). -/
def ProbeResult := Except Unit Nat

/-- Network-side oracles of one audit request: WHATWG URL resolution
(`new URL(link, base).href`, `none` when the constructor throws) and the
axios GET outcomes for the probed URLs and for the robots/sitemap
probes. -/
structure Net where
  resolve : String → String → Option String
  probe : String → Except Unit Nat
  robots : Except Unit Nat
  sitemap : Except Unit Nat

/-- Facts the third-party document tools extract from one HTML page:
cheerio query results (attributes are `none` when absent) plus the
Readability verdict and parse outcome for the same page. -/
structure Doc where
  titleText : String
  metaDescriptionAttr : Option String
  h1Count : Nat
  h2Count : Nat
  imgAltAttrs : List (Option String)
  canonicalHrefAttr : Option String
  ldJsonHtml : Option String
  hasItemscope : Bool
  anchorHrefAttrs : List (Option String)
  bodyText : String
  probablyReaderable : Bool
  readabilityParse : Option String

/-- The `seoData` record built by `analyzeOnPageSEO`
(src/WebsiteAudit/index.js:67-80). `imageAltTags` entries are JS values
that may be absent; `readability` is dynamically a number or a string. -/
structure SEOData where
  title : String
  metaDescription : String
  h1Count : Nat
  h2Count : Nat
  imageAltTags : List (Option String)
  canonicalLink : String
  robotsTxt : Bool
  sitemap : Bool
  structuredData : Bool
  brokenLinks : Nat
  keywordDensity : String
  readability : JsValue
deriving Repr, DecidableEq

/-- Embeds `checkRobotsTxt` (src/WebsiteAudit/index.js:89-96): status
200 means present, any rejection means absent. -/
def checkRobotsTxt (net : Net) : Bool :=
  match net.robots with
  | .ok s => s == 200
  | .error _ => false

/-- Embeds `checkSitemap` (src/WebsiteAudit/index.js:103-110). -/
def checkSitemap (net : Net) : Bool :=
  match net.sitemap with
  | .ok s => s == 200
  | .error _ => false

/-- Embeds `checkStructuredData` (src/WebsiteAudit/index.js:117-122):
`!!jsonLd || microdata`, where `$(sel).html()` is null without a match
and the empty string is falsy. -/
def checkStructuredData (ldJsonHtml : Option String) (hasItemscope : Bool) : Bool :=
  (match ldJsonHtml with
   | none => false
   | some s => s != "") || hasItemscope

/-- Model of the JS test `link.startsWith(hash)` for the one-character
prefix hash: the first character is the hash sign. -/
def startsWithHash (l : String) : Bool :=
  match l.data with
  | [] => false
  | c :: _ => c == '#'

/-- The link list of `findBrokenLinks` (src/WebsiteAudit/index.js:132-135):
cheerio `.map().get()` drops absent href attributes, then the filter
`link && !link.startsWith(hash)` drops empty hrefs and in-page fragment
links. -/
def candidateLinks (hrefs : List (Option String)) : List String :=
  (hrefs.filterMap id).filter (fun l => l != "" && !(startsWithHash l))

/-- One probed link is counted broken when the GET rejects or resolves
with a status other than 200 (src/WebsiteAudit/index.js:140-145). -/
def probeIsBroken (net : Net) (absUrl : String) : Bool :=
  match net.probe absUrl with
  | .ok s => s != 200
  | .error _ => true

/-- The per-link loop of `findBrokenLinks` (src/WebsiteAudit/index.js:137-146).
The URL construction `new URL(link, baseUrl)` stands before the try
block, so a resolution failure throws out of the whole function. -/
def brokenLoop (net : Net) (baseUrl : String) : List String → Nat → Except JsError Nat
  | [], acc => .ok acc
  | l :: ls, acc =>
    match net.resolve l baseUrl with
    | none => .error (JsError.typeError "Invalid URL")
    | some absUrl =>
      brokenLoop net baseUrl ls (if probeIsBroken net absUrl then acc + 1 else acc)

/-- Embeds `findBrokenLinks` (src/WebsiteAudit/index.js:130-148). -/
def findBrokenLinks (hrefs : List (Option String)) (baseUrl : String) (net : Net) :
    Except JsError Nat :=
  brokenLoop net baseUrl (candidateLinks hrefs) 0

/-- Embeds `analyzeOnPageSEO` (src/WebsiteAudit/index.js:65-82). The
cheerio queries are represented by the `Doc` fields; `.text().trim()`
for the title and `attr || empty` for meta description and canonical
link are applied here as in the source. Errors thrown by
`findBrokenLinks` or `calculateReadability` propagate. -/
def analyzeOnPageSEO (doc : Doc) (baseUrl : String) (net : Net) :
    Except JsError SEOData :=
  match findBrokenLinks doc.anchorHrefAttrs baseUrl net with
  | .error e => .error e
  | .ok broken =>
  match calculateReadability doc.probablyReaderable doc.readabilityParse with
  | .error e => .error e
  | .ok readability =>
  .ok
    { title := doc.titleText.trim
      metaDescription := doc.metaDescriptionAttr.getD ""
      h1Count := doc.h1Count
      h2Count := doc.h2Count
      imageAltTags := (doc.imgAltAttrs.filterMap id).map some
      canonicalLink := doc.canonicalHrefAttr.getD ""
      robotsTxt := checkRobotsTxt net
      sitemap := checkSitemap net
      structuredData := checkStructuredData doc.ldJsonHtml doc.hasItemscope
      brokenLinks := broken
      keywordDensity := calculateKeywordDensity doc.bodyText
      readability := readability }

/-- One Lighthouse category record; the tool reports an unscored
category with a null score. -/
structure LHCategory where
  score : Option ℚ
deriving Repr, DecidableEq

/-- The four categories requested by the audit options
(src/WebsiteAudit/index.js:13). -/
structure LHCategories where
  performance : LHCategory
  seo : LHCategory
  accessibility : LHCategory
  bestPractices : LHCategory
deriving Repr, DecidableEq

/-- The `lhr` result of `runLighthouseAudit`, as consumed by
`generateSEOScore`. -/
structure LighthouseResults where
  categories : LHCategories
deriving Repr, DecidableEq

/-- JS multiplication with a possibly-null left operand: null coerces
to 0, so a null category score contributes 0. -/
def jsNullableTimes (a : Option ℚ) (b : ℚ) : ℚ := a.getD 0 * b

/-- Embeds `calculateOnPageSEOScore` (src/WebsiteAudit/index.js:211-219):
five truthiness checks, 20 points each. -/
def calculateOnPageSEOScore (seoData : SEOData) : Nat :=
  let score := 0
  let score := if truthy seoData.title then score + 20 else score
  let score := if truthy seoData.metaDescription then score + 20 else score
  let score := if seoData.h1Count == 1 then score + 20 else score
  let score := if truthy seoData.canonicalLink then score + 20 else score
  let score := if seoData.imageAltTags.all truthyAlt then score + 20 else score
  score

/-- Embeds `generateSEOScore` (src/WebsiteAudit/index.js:199-204):
`categories.seo.score * 100` (null coerces to 0), averaged with the
on-page score and rounded with `Math.round`. -/
def generateSEOScore (lighthouseResults : LighthouseResults) (seoData : SEOData) : Int :=
  let lighthouseSEOScore : ℚ := jsNullableTimes lighthouseResults.categories.seo.score 100
  let onPageSEOScore : Nat := calculateOnPageSEOScore seoData
  let overallScore : ℚ := (lighthouseSEOScore + (onPageSEOScore : ℚ)) / 2
  jsMathRound overallScore

/-- The object returned on the (unreachable) success path of
`auditSiteWithProgress` (src/WebsiteAudit/index.js:248-253); the source
spells the second field `lighthoeResults`. -/
structure AuditResult where
  url : String
  lighthoeResults : LHCategories
  seoData : SEOData
  seoScore : Int
deriving Repr, DecidableEq

/-- JS falsiness of the `fetchHTML` result: null (fetch failed) or the
empty string are both falsy under `if (!html)`. -/
def jsFalsyOptStr : Option String → Bool
  | none => true
  | some s => s == ""

/-- Embeds `auditSiteWithProgress` (src/WebsiteAudit/index.js:226-254).
`fetchResult` is the value of `await this.fetchHTML(url)` (null on any
axios failure) and `lhResult` the value `runLighthouseAudit` would
return. The first component collects the strings passed to
`emitProgress`, in order. The source binds the Lighthouse result as
`const lightushouseResults = ...` (misspelled) and then reads
`lighthouseResults`, an identifier bound nowhere in the module; under
ES-module strict mode that lookup throws a ReferenceError, so every run
that passes the fetch check throws right after the second progress
message, and the analyze/score/complete stages of lines 241-253 are
unreachable. `lhResult` is therefore never consumed. -/
def auditSiteWithProgress (url : String) (fetchResult : Option String)
    (lhResult : Option LHCategories) :
    List String × Except JsError (Option AuditResult) :=
  if jsFalsyOptStr fetchResult then
    (["Fetching HTML...", "Failed to fetch HTML."], .ok none)
  else
    (["Fetching HTML...", "Running Lighthouse audit..."],
      .error (JsError.referenceError "lighthouseResults is not defined"))

/-- One server-sent event written by the audit route: a progress
message, the final results object, or an error object. -/
inductive SSEEvent
  | progress (msg : String)
  | results (r : AuditResult)
  | error (msg : String)
deriving Repr, DecidableEq

/-- Observable HTTP outcome of the audit route: an immediate 400 with an
error body, or an event stream (with whether `res.end()` closed it). -/
inductive HttpResponse
  | badRequest (body : String)
  | stream (events : List SSEEvent) (closed : Bool)
deriving Repr, DecidableEq

/-- Embeds `auditWebsiteWithStreaming` (src/routes/audit.js:1-35).
`site` is the `site` query parameter (absent or its string value); an
absent or empty value is falsy and yields the 400 response before any
stream is opened. Otherwise every `emitProgress` call writes a progress
event, a non-null result writes a results event, a null result writes
the Audit-failed error event, a thrown error is caught and its message
written as an error event, and `res.end()` closes the stream. -/
def auditWebsiteWithStreaming (site : Option String) (fetchResult : Option String)
    (lhResult : Option LHCategories) : HttpResponse :=
  match site with
  | none => .badRequest "Site URL is required."
  | some s =>
    if s == "" then .badRequest "Site URL is required."
    else
      let (msgs, outcome) := auditSiteWithProgress s fetchResult lhResult
      let progressEvents := msgs.map SSEEvent.progress
      let finalEvent :=
        match outcome with
        | .ok (some r) => SSEEvent.results r
        | .ok none => SSEEvent.error "Audit failed."
        | .error e => SSEEvent.error e.message
      .stream (progressEvents ++ [finalEvent]) true

/-- Events carried by a route response (a 400 opens no stream). -/
def HttpResponse.events : HttpResponse → List SSEEvent
  | .badRequest _ => []
  | .stream evs _ => evs

/-- Recognizer for progress-shaped events. -/
def SSEEvent.isProgress : SSEEvent → Bool
  | .progress _ => true
  | _ => false

/-- Recognizer for results-shaped events. -/
def SSEEvent.isResults : SSEEvent → Bool
  | .results _ => true
  | _ => false

/-- Recognizer for error-shaped events. -/
def SSEEvent.isError : SSEEvent → Bool
  | .error _ => true
  | _ => false

/-- Modelled from the spec wording of section 4.4, for comparison with
the code-side `calculateOnPageSEOScore`: 20 points each for non-empty
title, non-empty meta description, exactly one H1, non-empty canonical
link, and every image alt-tag present and non-empty (vacuously true
when there are no images). -/
def specOnPageScore (s : SEOData) : Nat :=
  (if s.title ≠ "" then 20 else 0) +
  (if s.metaDescription ≠ "" then 20 else 0) +
  (if s.h1Count = 1 then 20 else 0) +
  (if s.canonicalLink ≠ "" then 20 else 0) +
  (if ∀ a ∈ s.imageAltTags, a ≠ none ∧ a ≠ some "" then 20 else 0)

/-- JS truthiness of a string-or-undefined value agrees with the spec
phrase "present and non-empty". -/
theorem truthyAlt_iff (a : Option String) :
    truthyAlt a = true ↔ (a ≠ none ∧ a ≠ some "") := by
  cases a with
  | none => simp [truthyAlt]
  | some s => simp [truthyAlt]

/-- The accumulator-style checklist of the source computes the sum of
the five 20-point indicators of the spec. -/
theorem onPageScore_eq_spec (s : SEOData) :
    calculateOnPageSEOScore s = specOnPageScore s := by
  have halt : (s.imageAltTags.all truthyAlt = true) ↔
      (∀ a ∈ s.imageAltTags, a ≠ none ∧ a ≠ some "") := by
    rw [List.all_eq_true]
    constructor
    · intro h a ha
      exact (truthyAlt_iff a).mp (h a ha)
    · intro h a ha
      exact (truthyAlt_iff a).mpr (h a ha)
  simp only [calculateOnPageSEOScore, specOnPageScore, truthy, bne_iff_ne, beq_iff_eq, halt]
  split_ifs <;> omega

/-- C4: for every SEOSignals record, the on-page checklist awards
exactly 20 points for each of non-empty title, non-empty meta
description, h1Count exactly 1, non-empty canonical link, and every
image alt-tag present and non-empty (vacuously satisfied with no
images); with all five satisfied the score is 100 and with none
satisfied it is 0. -/
theorem calculateOnPageSEOScore_checklist :
    ∀ s : SEOData,
      calculateOnPageSEOScore s = specOnPageScore s ∧
      ((s.title ≠ "" ∧ s.metaDescription ≠ "" ∧ s.h1Count = 1 ∧ s.canonicalLink ≠ "" ∧
          (∀ a ∈ s.imageAltTags, a ≠ none ∧ a ≠ some "")) →
        calculateOnPageSEOScore s = 100) ∧
      ((s.title = "" ∧ s.metaDescription = "" ∧ s.h1Count ≠ 1 ∧ s.canonicalLink = "" ∧
          ¬(∀ a ∈ s.imageAltTags, a ≠ none ∧ a ≠ some "")) →
        calculateOnPageSEOScore s = 0) := by
  intro s
  refine ⟨onPageScore_eq_spec s, ?_, ?_⟩
  · rintro ⟨h1, h2, h3, h4, h5⟩
    rw [onPageScore_eq_spec s]
    simp only [specOnPageScore, h1, h2, h3, h4]
    rw [if_pos h5]
    simp [h1, h2, h4]
  · rintro ⟨h1, h2, h3, h4, h5⟩
    rw [onPageScore_eq_spec s]
    simp [specOnPageScore, h1, h2, h3, h4, h5]

/-- A signals record satisfying all five checklist items. -/
def seoDataAll : SEOData :=
  { title := "Test Title"
    metaDescription := "Test Description"
    h1Count := 1
    h2Count := 1
    imageAltTags := [some "Test Alt"]
    canonicalLink := "https://example.com"
    robotsTxt := true
    sitemap := true
    structuredData := false
    brokenLinks := 0
    keywordDensity := "0.00"
    readability := JsValue.str "72.19" }

/-- A signals record satisfying none of the five checklist items. -/
def seoDataNone : SEOData :=
  { title := ""
    metaDescription := ""
    h1Count := 0
    h2Count := 0
    imageAltTags := [none]
    canonicalLink := ""
    robotsTxt := false
    sitemap := false
    structuredData := false
    brokenLinks := 3
    keywordDensity := "NaN"
    readability := JsValue.num 0 }

/-- Witness for C4 at concrete records: all five checks give 100,
none give 0. -/
theorem calculateOnPageSEOScore_checklist_witness :
    calculateOnPageSEOScore seoDataAll = 100 ∧ calculateOnPageSEOScore seoDataNone = 0 :=
  ⟨(calculateOnPageSEOScore_checklist seoDataAll).2.1 (by decide),
   (calculateOnPageSEOScore_checklist seoDataNone).2.2 (by decide)⟩

/-- C3: for every browser-audit SEO score (a rational in the unit
interval, or absent) and every signals record, the overall score is
round((x * 100 + onPageScore) / 2); an absent score contributes 0 (in
the source a null score reaches `null * 100`, which JS coerces to 0);
with all five checks satisfied and x = 1 the overall score is 100. -/
theorem generateSEOScore_spec :
    ∀ (lhr : LighthouseResults) (s : SEOData),
      generateSEOScore lhr s =
        jsMathRound ((lhr.categories.seo.score.getD 0 * 100 + (specOnPageScore s : ℚ)) / 2) ∧
      ((lhr.categories.seo.score = some 1 ∧ s.title ≠ "" ∧ s.metaDescription ≠ "" ∧
          s.h1Count = 1 ∧ s.canonicalLink ≠ "" ∧
          (∀ a ∈ s.imageAltTags, a ≠ none ∧ a ≠ some "")) →
        generateSEOScore lhr s = 100) := by
  intro lhr s
  constructor
  · simp [generateSEOScore, jsNullableTimes, onPageScore_eq_spec s]
  · rintro ⟨hx, h1, h2, h3, h4, h5⟩
    have h100 : specOnPageScore s = 100 := by
      simp only [specOnPageScore, h1, h2, h3, h4]
      rw [if_pos h5]
      simp [h1, h2, h4]
    have hcode : calculateOnPageSEOScore s = 100 := (onPageScore_eq_spec s).trans h100
    simp only [generateSEOScore, jsNullableTimes, hx, hcode, Option.getD_some]
    norm_num [jsMathRound]

/-- A full Lighthouse result with a perfect SEO category score. -/
def lhrFull : LighthouseResults :=
  ⟨{ performance := ⟨some (99/100)⟩
     seo := ⟨some 1⟩
     accessibility := ⟨some (95/100)⟩
     bestPractices := ⟨some (92/100)⟩ }⟩

/-- Witness for C3: a perfect browser SEO score and a fully satisfied
checklist give an overall score of 100. -/
theorem generateSEOScore_spec_witness : generateSEOScore lhrFull seoDataAll = 100 :=
  (generateSEOScore_spec lhrFull seoDataAll).2 (by decide)

/-- Verdict of one candidate link under the oracles: counted broken when
its GET rejects or resolves with a status other than 200. Links whose
URL resolution fails are handled separately (the code throws there). -/
def linkBroken (net : Net) (baseUrl : String) (l : String) : Bool :=
  match net.resolve l baseUrl with
  | some absUrl => probeIsBroken net absUrl
  | none => false

/-- When every link of the list resolves, the sequential loop returns
the accumulator plus the per-occurrence count of broken links. -/
theorem brokenLoop_eq_countP (net : Net) (base : String) :
    ∀ (ls : List String) (acc : Nat),
      (∀ l ∈ ls, (net.resolve l base).isSome) →
      brokenLoop net base ls acc = .ok (acc + ls.countP (linkBroken net base)) := by
  intro ls
  induction ls with
  | nil =>
    intro acc _
    simp [brokenLoop]
  | cons l ls ih =>
    intro acc h
    obtain ⟨a, ha⟩ := Option.isSome_iff_exists.mp (h l (List.mem_cons_self l ls))
    have hrest : ∀ x ∈ ls, (net.resolve x base).isSome :=
      fun x hx => h x (List.mem_cons_of_mem _ hx)
    simp only [brokenLoop, ha]
    rw [ih _ hrest]
    simp only [List.countP_cons, linkBroken, ha, Except.ok.injEq]
    cases hpb : probeIsBroken net a <;> simp [hpb] <;> try omega

/-- C7: for every href list, base URL and network behavior in which
every candidate link resolves, the broken-link count is the
per-occurrence count, over all anchor hrefs excluding leading-hash
fragment links, of links whose resolved URL fails to load or loads with
a non-success status; repeated links count once per occurrence. -/
theorem findBrokenLinks_count_spec :
    ∀ (hrefs : List (Option String)) (base : String) (net : Net),
      (∀ l ∈ candidateLinks hrefs, (net.resolve l base).isSome) →
      findBrokenLinks hrefs base net =
        .ok ((candidateLinks hrefs).countP (linkBroken net base)) := by
  intro hrefs base net h
  have := brokenLoop_eq_countP net base (candidateLinks hrefs) 0 h
  simpa [findBrokenLinks] using this

/-- Oracles for the spec scenario with links A (status 200), B (status
404) and C (network error): every link resolves to itself. -/
def netABC : Net :=
  { resolve := fun l _ => some l
    probe := fun u =>
      if u = "https://x.test/a" then .ok 200
      else if u = "https://x.test/b" then .ok 404
      else .error ()
    robots := .error ()
    sitemap := .error () }

/-- Witness for C7: links A (200), B (404), C (network error) with no
fragment links give a broken-link count of 2. -/
theorem findBrokenLinks_count_spec_witness :
    findBrokenLinks
      [some "https://x.test/a", some "https://x.test/b", some "https://x.test/c"]
      "https://x.test" netABC = .ok 2 := by
  rw [findBrokenLinks_count_spec _ _ _ (by decide)]
  rfl

/-- Every anchor entry that is a missing or empty href is dropped before
the probing loop. -/
theorem candidateLinks_filter_keep :
    ∀ hrefs : List (Option String),
      candidateLinks (hrefs.filter (fun h => h != none && h != some "")) =
        candidateLinks hrefs := by
  intro hrefs
  induction hrefs with
  | nil => rfl
  | cons h t ih =>
    cases h with
    | none =>
      simpa [candidateLinks, List.filter_cons, List.filterMap_cons] using ih
    | some s =>
      by_cases hs : s = ""
      · subst hs
        simpa [candidateLinks, List.filter_cons, List.filterMap_cons] using ih
      · simp only [candidateLinks, List.filter_cons, List.filterMap_cons] at ih ⊢
        by_cases hp : startsWithHash s = true <;>
          simp [hs, hp, List.filter_cons, List.filterMap_cons, ih]

/-- C10: anchors with a missing or empty href attribute are excluded
from the broken-link check entirely: the candidate list is unchanged
when they are removed, the computed count is unchanged, and the empty
href is never among the probed links. -/
theorem findBrokenLinks_ignores_missing_and_empty_hrefs :
    ∀ (hrefs : List (Option String)) (base : String) (net : Net),
      candidateLinks (hrefs.filter (fun h => h != none && h != some "")) =
        candidateLinks hrefs ∧
      findBrokenLinks (hrefs.filter (fun h => h != none && h != some "")) base net =
        findBrokenLinks hrefs base net ∧
      "" ∉ candidateLinks hrefs := by
  intro hrefs base net
  refine ⟨candidateLinks_filter_keep hrefs, ?_, ?_⟩
  · simp [findBrokenLinks, candidateLinks_filter_keep hrefs]
  · intro hmem
    simp only [candidateLinks, List.mem_filter] at hmem
    simp at hmem

/-- A page whose only anchor href is the scheme-only string that the
WHATWG URL constructor rejects (for example new URL with http and colon
slash slash only throws a TypeError in Node). -/
def badLinkDoc : Doc :=
  { titleText := "T"
    metaDescriptionAttr := some "D"
    h1Count := 1
    h2Count := 0
    imgAltAttrs := []
    canonicalHrefAttr := some "https://example.com"
    ldJsonHtml := none
    hasItemscope := false
    anchorHrefAttrs := [some "http://"]
    bodyText := "some example text"
    probablyReaderable := false
    readabilityParse := none }

/-- Oracles in which the single candidate link fails URL resolution
while every other sub-check behaves normally. -/
def failingResolveNet : Net :=
  { resolve := fun _ _ => none
    probe := fun _ => .ok 200
    robots := .ok 200
    sitemap := .ok 200 }

/-- C5 counterexample: the URL construction stands outside the try
block of `findBrokenLinks`, so one unresolvable href makes the whole
`analyzeOnPageSEO` reject instead of degrading to a default; the claim
that the analysis never fails as a unit is false. -/
theorem analyzeOnPageSEO_aborts_on_unresolvable_href :
    analyzeOnPageSEO badLinkDoc "https://example.com" failingResolveNet =
      .error (JsError.typeError "Invalid URL") := rfl

/-- C5 amended: when every candidate link resolves and the readability
stage does not hit the null-parse hole (the page is either judged not
readable or its parse yields an article), the analysis succeeds for
every outcome of the robots, sitemap and per-link GET probes, which
degrade to defaults and never abort the analysis. -/
theorem analyzeOnPageSEO_ok_of_resolvable_and_parsable :
    ∀ (doc : Doc) (base : String) (net : Net),
      (∀ l ∈ candidateLinks doc.anchorHrefAttrs, (net.resolve l base).isSome) →
      (doc.probablyReaderable = false ∨ doc.readabilityParse.isSome) →
      ∃ s : SEOData, analyzeOnPageSEO doc base net = .ok s := by
  intro doc base net hres hread
  have hb : findBrokenLinks doc.anchorHrefAttrs base net =
      .ok ((candidateLinks doc.anchorHrefAttrs).countP (linkBroken net base)) := by
    have := brokenLoop_eq_countP net base (candidateLinks doc.anchorHrefAttrs) 0 hres
    simpa [findBrokenLinks] using this
  have hr : ∃ v, calculateReadability doc.probablyReaderable doc.readabilityParse = .ok v := by
    rcases hread with h | h
    · exact ⟨JsValue.num 0, by simp [calculateReadability, h]⟩
    · obtain ⟨t, ht⟩ := Option.isSome_iff_exists.mp h
      cases hcr : doc.probablyReaderable
      · exact ⟨JsValue.num 0, by simp [calculateReadability]⟩
      · refine ⟨JsValue.str (jsToFixed2
          (206.835 - 1.015 * (((splitRuns Char.isWhitespace t).length : ℚ) /
              ((splitRuns isSentenceDelim t).length : ℚ))
            - 84.6 * ((t.data.countP isVowelChar : ℚ) /
              ((splitRuns Char.isWhitespace t).length : ℚ)))), ?_⟩
        rw [ht]
        rfl
  obtain ⟨v, hv⟩ := hr
  exact ⟨_, by rw [analyzeOnPageSEO, hb, hv]⟩

/-- A page with no links, judged not readable, probed by a network in
which every request fails. -/
def offlineDoc : Doc :=
  { titleText := " Test Title "
    metaDescriptionAttr := none
    h1Count := 2
    h2Count := 0
    imgAltAttrs := [some "a", none]
    canonicalHrefAttr := none
    ldJsonHtml := some ""
    hasItemscope := false
    anchorHrefAttrs := [some "#top", none, some ""]
    bodyText := "example words here"
    probablyReaderable := false
    readabilityParse := none }

/-- Oracles in which every network request fails. -/
def allFailNet : Net :=
  { resolve := fun _ _ => none
    probe := fun _ => .error ()
    robots := .error ()
    sitemap := .error () }

/-- Witness for the amended C5: with only fragment, missing or empty
hrefs and an unreadable page, the analysis succeeds even though every
robots, sitemap and link probe fails. -/
theorem analyzeOnPageSEO_ok_witness :
    ∃ s : SEOData, analyzeOnPageSEO offlineDoc "https://example.com" allFailNet = .ok s :=
  analyzeOnPageSEO_ok_of_resolvable_and_parsable offlineDoc "https://example.com" allFailNet
    (by decide) (Or.inl rfl)

/-- C6: for a document judged not readable the source reports the
number 0 rather than an empty or absent score (the repository test
expects a string there, and the spec data model says the score may be
empty); and for a document judged readable whose Readability parse
returns null, the source throws instead of producing a score, because
its null check inspects the Readability object and not the parse
result. -/
theorem calculateReadability_unreadable_returns_number_zero :
    calculateReadability false none = .ok (JsValue.num 0) ∧
    calculateReadability false (some "long article text.") = .ok (JsValue.num 0) ∧
    (∀ s : String, JsValue.num 0 ≠ JsValue.str s) ∧
    calculateReadability true none =
      .error (JsError.typeError "Cannot read properties of null") :=
  ⟨rfl, rfl, fun _ h => JsValue.noConfusion h, rfl⟩

/-- Shape test for a plain decimal numeral: nonempty and built from
digits, a decimal point or a sign. -/
def decimalShaped (s : String) : Bool :=
  s != "" && s.data.all (fun c => c.isDigit || c == '.' || c == '-')

/-- C8 counterexample: a body with no tokens makes the source compute
(0 / 0) * 100, which is NaN, and toFixed turns it into the string NaN:
the reported density is a silently propagated NaN, not the explicit
0.00 or an explicit failure the claim requires. -/
theorem calculateKeywordDensity_zero_tokens_is_NaN_string :
    calculateKeywordDensity "" = "NaN" ∧ decimalShaped "NaN" = false ∧
      calculateKeywordDensity "" ≠ "0.00" := by
  exact ⟨rfl, rfl, by decide⟩

/-- C8 amended: for every body text whose token list is empty, the
keyword-density computation returns the string NaN, the stringified
IEEE NaN produced by the 0 / 0 division, rather than an explicitly
defined numeric result or failure. -/
theorem calculateKeywordDensity_no_tokens_NaN :
    ∀ text : String, jsTokens text = [] → calculateKeywordDensity text = "NaN" := by
  intro text h
  simp [calculateKeywordDensity, h]

/-- Witness for the amended C8 at a whitespace-only body text. -/
theorem calculateKeywordDensity_no_tokens_NaN_witness :
    jsTokens "   " = [] ∧ calculateKeywordDensity "   " = "NaN" :=
  ⟨by decide, calculateKeywordDensity_no_tokens_NaN "   " (by decide)⟩

/-- C9: keyword density is order-independent: two body texts whose
token lists are permutations of each other (the same multiset of
whitespace-delimited tokens) report the same density string. -/
theorem calculateKeywordDensity_perm_invariant :
    ∀ t1 t2 : String, (jsTokens t1).Perm (jsTokens t2) →
      calculateKeywordDensity t1 = calculateKeywordDensity t2 := by
  intro t1 t2 hp
  have hlen : (jsTokens t1).length = (jsTokens t2).length := hp.length_eq
  have hflt :
      ((jsTokens t1).filter (fun w => w.toLower == "example")).length =
        ((jsTokens t2).filter (fun w => w.toLower == "example")).length :=
    (hp.filter _).length_eq
  simp only [calculateKeywordDensity]
  rw [hflt, hlen]

/-- Witness for C9: two texts with the same tokens in different order
report the same density. -/
theorem calculateKeywordDensity_perm_invariant_witness :
    calculateKeywordDensity "example a b" = calculateKeywordDensity "b a example" :=
  calculateKeywordDensity_perm_invariant "example a b" "b a example" (by decide)

/-- C1: evaluation at any request whose page fetch succeeds. The source
binds the Lighthouse result to the misspelled name lightushouseResults
and then reads lighthouseResults, which is unbound, so every run that
passes the fetch stage throws a ReferenceError: the stream carries the
first two progress events and then a terminal error event. The claim
says that on success five progress labels are emitted and the terminal
event carries the full AuditResult; no run of the code can do that, and
the analyzing, scoring and completion labels are never emitted. -/
theorem auditStream_successful_fetch_throws :
    ∀ (site html : String) (lh : Option LHCategories),
      site ≠ "" → html ≠ "" →
      auditWebsiteWithStreaming (some site) (some html) lh =
        .stream
          [SSEEvent.progress "Fetching HTML...",
           SSEEvent.progress "Running Lighthouse audit...",
           SSEEvent.error "lighthouseResults is not defined"] true := by
  intro site html lh hs hh
  simp [auditWebsiteWithStreaming, auditSiteWithProgress, jsFalsyOptStr, hs, hh,
    JsError.message]

/-- Witness for C1 at a concrete successful fetch. -/
theorem auditStream_successful_fetch_throws_witness :
    auditWebsiteWithStreaming (some "https://example.com")
        (some "<html><body>hi</body></html>") none =
      .stream
        [SSEEvent.progress "Fetching HTML...",
         SSEEvent.progress "Running Lighthouse audit...",
         SSEEvent.error "lighthouseResults is not defined"] true :=
  auditStream_successful_fetch_throws "https://example.com"
    "<html><body>hi</body></html>" none (by decide) (by decide)

/-- C2 counterexample: on a fetch failure the stream carries two
progress-shaped events (the fetching label and the failure message sent
through emitProgress), not exactly one as the claim states. -/
theorem fetchFailure_two_progress_events :
    ((auditWebsiteWithStreaming (some "https://example.com") none none).events.countP
        SSEEvent.isProgress = 2) ∧
    ¬((auditWebsiteWithStreaming (some "https://example.com") none none).events.countP
        SSEEvent.isProgress = 1) := by
  constructor <;> decide

/-- C2 amended: for every nonempty site URL whose page fetch fails, the
stream carries exactly two progress events (the fetching label, then
the fetch-failure message, both written through emitProgress) followed
by a single terminal error event; the stream is closed, no results
event is ever sent, and no AuditResult is produced. -/
theorem fetchFailure_stream_shape :
    ∀ (site : String) (lh : Option LHCategories), site ≠ "" →
      auditWebsiteWithStreaming (some site) none lh =
        .stream
          [SSEEvent.progress "Fetching HTML...",
           SSEEvent.progress "Failed to fetch HTML.",
           SSEEvent.error "Audit failed."] true ∧
      (auditSiteWithProgress site none lh).2 = .ok none := by
  intro site lh hs
  constructor
  · simp [auditWebsiteWithStreaming, auditSiteWithProgress, jsFalsyOptStr, hs]
  · rfl

/-- Witness for the amended C2 at a concrete site. -/
theorem fetchFailure_stream_shape_witness :
    auditWebsiteWithStreaming (some "https://example.com") none none =
      .stream
        [SSEEvent.progress "Fetching HTML...",
         SSEEvent.progress "Failed to fetch HTML.",
         SSEEvent.error "Audit failed."] true :=
  (fetchFailure_stream_shape "https://example.com" none (by decide)).1
